import Mathlib

set_option maxRecDepth 4000

/-!
Shallow embedding of the crossput input library core
(src/src/common.hpp, src/src/impl.cpp, src/src/impl_linux.cpp), together with
theorems settling the specification claims about it.

Modelling conventions:
* C++ `float` values are modelled as exact rationals (`ℚ`); a decimal literal
  such as `0.025F` is modelled by its decimal value.  Every float comparison a
  theorem below depends on was additionally checked by hand against IEEE
  binary32 semantics of the source; the verdicts coincide.
* Machine integers are modelled as `Nat`/`Int` with explicit reduction
  `% 2 ^ w` exactly where the source relies on wrap-around or masking.
* The process-global mutable collections (`glob_interfaces`,
  `glob_dev_to_aggr`, `glob_callbacks`, `glob_callback_mapping`,
  `glob_disable_management_api`, `glob_id_counter`, `nat_device_ids`) become
  fields of explicit state records that are threaded through the operations.
* Functions that throw (`ProtectManagementAPI`, `DestroyHierarchy`) return
  `Except String`.
* The OS bridge (file descriptors, ioctl capability queries) is out of scope
  for the library core; bridge-provided facts (hardware id, deduced device
  type) appear as fields of an abstract event-source record.
-/

namespace Crossput

/-- Bit 63, the mask used by `TSTV` to pack the digital state into the
timestamp word (`STATE_BITMASK` in common.hpp). -/
def STATE_BITMASK : Nat := 2 ^ 63

/-- crossput::AnalogToDigital (common.hpp).  `ANTI_BOUNCE` is the float
literal `0.025F`, modelled by its decimal value `25 / 1000`. -/
def AnalogToDigital (value threshold : ℚ) (current_state : Bool) : Bool :=
  let m : ℚ := min threshold (1 - threshold) * (25 / 1000)
  decide (value > (if current_state then threshold - m else threshold + m))

/-- crossput::TSTV (common.hpp): packed timestamp+state word `_a`
(64-bit, state in the top bit), threshold `_b`, analog value `_c`. -/
structure TSTV where
  _a : Nat
  _b : ℚ
  _c : ℚ
deriving DecidableEq, Repr

/-- A zero-initialised cell (the `= {}` / `memset` initial state). -/
def TSTV.zero : TSTV := { _a := 0, _b := 0, _c := 0 }

/-- TSTV::Timestamp: `_a & TIMESTAMP_BITMASK`, i.e. the low 63 bits. -/
def TSTV.Timestamp (t : TSTV) : Nat := t._a % STATE_BITMASK

/-- TSTV::State: whether `_a & STATE_BITMASK` is set, i.e. bit 63 of `_a`. -/
def TSTV.State (t : TSTV) : Bool := decide (t._a / STATE_BITMASK % 2 = 1)

/-- TSTV::SetTimestampState: `_a = (state << 63) | (timestamp & TIMESTAMP_BITMASK)`.
The two operands of the bitwise or have disjoint bits, so it is addition. -/
def TSTV.SetTimestampState (t : TSTV) (timestamp : Nat) (state : Bool) : TSTV :=
  { t with _a := (if state then STATE_BITMASK else 0) + timestamp % STATE_BITMASK }

/-- TSTV::Threshold. -/
def TSTV.Threshold (t : TSTV) : ℚ := t._b

/-- TSTV::SetThreshold. -/
def TSTV.SetThreshold (t : TSTV) (threshold : ℚ) : TSTV := { t with _b := threshold }

/-- TSTV::Value. -/
def TSTV.Value (t : TSTV) : ℚ := t._c

/-- TSTV::SetValue. -/
def TSTV.SetValue (t : TSTV) (value : ℚ) : TSTV := { t with _c := value }

/-- TSTV::Modify(new_value, ts, new_state) (common.hpp, the variant returning
the "modified" flag).  Result: (updated cell, new_state, modified). -/
def TSTV.Modify (t : TSTV) (new_value : ℚ) (ts : Nat) : TSTV × Bool × Bool :=
  let old_state := t.State
  let new_state := AnalogToDigital new_value t.Threshold old_state
  let value_changed : Bool := decide (new_value ≠ t.Value)
  let state_changed : Bool := new_state != old_state
  let force_write : Bool := decide (t.Timestamp = 0)
  let t1 := if state_changed || force_write then t.SetTimestampState ts new_state else t
  let t2 := if value_changed || force_write then t1.SetValue new_value else t1
  (t2, new_state, value_changed || state_changed || (force_write && new_state))

/-- Successor modulo 2^32: the `counter++` of a `uint32_t` counter. -/
def u32succ (c : Nat) : Nat := (c + 1) % 2 ^ 32

/-- Predecessor modulo 2^32: the `counter--` of a `uint32_t` counter. -/
def u32pred (c : Nat) : Nat := (c + (2 ^ 32 - 1)) % 2 ^ 32

/-- TSTV::Modify(new_value, ts, new_state, counter) (common.hpp, "KBD VERSION"):
additionally maintains the shared keys-pressed counter.
Result: (updated cell, new_state, modified, counter). -/
def TSTV.ModifyKbd (t : TSTV) (new_value : ℚ) (ts : Nat) (counter : Nat) :
    TSTV × Bool × Bool × Nat :=
  let old_state := t.State
  let new_state := AnalogToDigital new_value t.Threshold old_state
  let value_changed : Bool := decide (new_value ≠ t.Value)
  let state_changed : Bool := new_state != old_state
  let force_write : Bool := decide (t.Timestamp = 0)
  let t1 := if state_changed || force_write then t.SetTimestampState ts new_state else t
  let counter1 :=
    if state_changed || force_write then
      if new_state then u32succ counter
      else if !force_write then u32pred counter
      else counter
    else counter
  let t2 := if value_changed || force_write then t1.SetValue new_value else t1
  (t2, new_state, value_changed || state_changed || (force_write && new_state), counter1)

/-- State of a cell observed after a sequence of Modify calls: the digital
state of the cell after each call, in order. -/
def modifySeqStates : TSTV → List (ℚ × Nat) → List Bool
  | _, [] => []
  | t, (v, ts) :: rest =>
    let r := t.Modify v ts
    r.1.State :: modifySeqStates r.1 rest

/-! ### Callback dispatch (common.hpp, CROSSPUT_FEATURE_CALLBACK section) -/

/-- crossput::EventCallbackKey.  `filter` is the `uint64_t` discriminator,
`ctypeid` the callback-kind tag (`TCallback::CTYPEID`). -/
structure EventCallbackKey where
  device_id : Nat
  filter : Nat
  ctypeid : Nat
  has_filter : Bool
deriving DecidableEq, Repr

/-- ConstructEventCallbackKey (the non-filtered overload): filter is zero,
has_filter is false. -/
def keyNoFilter (ctypeid device_id : Nat) : EventCallbackKey :=
  { device_id := device_id, filter := 0, ctypeid := ctypeid, has_filter := false }

/-- ConstructEventCallbackKey (the filtered overload). -/
def keyWithFilter (ctypeid device_id value_filter : Nat) : EventCallbackKey :=
  { device_id := device_id, filter := value_filter, ctypeid := ctypeid, has_filter := true }

/-- The two process-global callback tables: `glob_callbacks` (live wrapper ids)
and `glob_callback_mapping` (key-to-callback-id multimap, modelled as an
association list). -/
structure CallbackTables where
  callbacks : List Nat
  mapping : List (EventCallbackKey × Nat)
deriving DecidableEq, Repr

/-- The loop body of ExecuteCallbacks_Impl: walk the entries of
`glob_callback_mapping` equal to `key`; invoke each callback id that is still
present in `glob_callbacks` (recorded in the returned trace), and erase dead
mappings.  Returns the surviving mapping and the invocation trace. -/
def ExecuteCallbacksImplGo (live : List Nat) (key : EventCallbackKey) :
    List (EventCallbackKey × Nat) → List (EventCallbackKey × Nat) × List Nat
  | [] => ([], [])
  | e :: rest =>
    if e.1 = key then
      if e.2 ∈ live then
        let r := ExecuteCallbacksImplGo live key rest
        (e :: r.1, e.2 :: r.2)
      else
        ExecuteCallbacksImplGo live key rest
    else
      let r := ExecuteCallbacksImplGo live key rest
      (e :: r.1, r.2)

/-- crossput::ExecuteCallbacks_Impl: dispatch to all callbacks registered under
`key`, lazily erasing dead mappings. -/
def ExecuteCallbacksImpl (ct : CallbackTables) (key : EventCallbackKey) :
    CallbackTables × List Nat :=
  let r := ExecuteCallbacksImplGo ct.callbacks key ct.mapping
  ({ ct with mapping := r.1 }, r.2)

/-- crossput::ExecuteCallbacksWithFilter: device-specific filtered key first,
then the global (device 0) filtered key. -/
def ExecuteCallbacksWithFilter (ct : CallbackTables) (ctypeid dev filt : Nat) :
    CallbackTables × List Nat :=
  let r1 := ExecuteCallbacksImpl ct (keyWithFilter ctypeid dev filt)
  let r2 := ExecuteCallbacksImpl r1.1 (keyWithFilter ctypeid 0 filt)
  (r2.1, r1.2 ++ r2.2)

/-- crossput::ExecuteCallbacks: device-specific non-filtered key first, then
the global (device 0) non-filtered key. -/
def ExecuteCallbacks (ct : CallbackTables) (ctypeid dev : Nat) :
    CallbackTables × List Nat :=
  let r1 := ExecuteCallbacksImpl ct (keyNoFilter ctypeid dev)
  let r2 := ExecuteCallbacksImpl r1.1 (keyNoFilter ctypeid 0)
  (r2.1, r1.2 ++ r2.2)

/-- The shared shape of DeviceStatusChanged, MouseCallbackManagerImpl's
ButtonChanged, KeyChanged, GamepadCallbackManagerImpl's ButtonChanged and
ThumbstickChanged: first ExecuteCallbacksWithFilter, then ExecuteCallbacks
("prioritize callbacks with a filter").  The returned trace lists invoked
callback ids in invocation order. -/
def DispatchFilteredEvent (ct : CallbackTables) (ctypeid dev filt : Nat) :
    CallbackTables × List Nat :=
  let r1 := ExecuteCallbacksWithFilter ct ctypeid dev filt
  let r2 := ExecuteCallbacks r1.1 ctypeid dev
  (r2.1, r1.2 ++ r2.2)

/-- The callbacks registered under `key` that are currently live, in mapping
order (the contents of one dispatch bucket). -/
def liveBucket (ct : CallbackTables) (key : EventCallbackKey) : List Nat :=
  (ct.mapping.filter (fun e => decide (e.1 = key) && decide (e.2 ∈ ct.callbacks))).map Prod.snd

/-- Modelled from the spec, for comparison with the code: the invocation order
stated in spec section 4.4 ("1. device-specific filtered, 2. device-specific
any, 3. global filtered, 4. global any"). -/
def SpecDispatchOrder (ct : CallbackTables) (ctypeid dev filt : Nat) : List Nat :=
  liveBucket ct (keyWithFilter ctypeid dev filt)
    ++ liveBucket ct (keyNoFilter ctypeid dev)
    ++ liveBucket ct (keyWithFilter ctypeid 0 filt)
    ++ liveBucket ct (keyNoFilter ctypeid 0)

/-! ### Registry, reentrancy guard, hierarchy destruction (impl.cpp) -/

/-- crossput::DeviceType (crossput.hpp). -/
inductive DeviceType where
  | MOUSE
  | KEYBOARD
  | GAMEPAD
  | UNKNOWN
deriving DecidableEq, Repr

/-- One entry of `glob_interfaces`: a device or aggregate interface with its
runtime id, type tag, and (for aggregates) the ordered member-id list;
physical devices have no members. -/
structure Interface where
  ifid : Nat
  dtype : DeviceType
  members : List Nat
deriving DecidableEq, Repr

/-- The process-global management state: `glob_id_counter`, `glob_interfaces`,
`glob_dev_to_aggr` (member id to aggregate id multimap), the Linux backend's
`nat_device_ids` set of known hardware ids, and
`glob_disable_management_api`. -/
structure GState where
  id_counter : Nat
  interfaces : List Interface
  dev_to_aggr : List (Nat × Nat)
  nat_device_ids : List Nat
  disable_management_api : Bool
deriving DecidableEq, Repr

/-- The error message thrown by crossput::ProtectManagementAPI (common.hpp),
with the function-signature string spliced in. -/
def protectMsg (details : String) : String :=
  "Illegal access to crossput management API from within a callback. Details: " ++ details

/-- crossput::ProtectManagementAPI: throws when `glob_disable_management_api`
is set. -/
def ProtectManagementAPI (flag : Bool) (details : String) : Except String Unit :=
  if flag then .error (protectMsg details) else .ok ()

/-- EventCallbackWrapper::Invoke (common.hpp): sets the guard flag, runs the
user callback, and clears the flag again on both the normal and the
exceptional exit path (the `catch (...)` re-throw).  The callback is modelled
as a function of the global state returning the state it leaves behind plus an
optional exception. -/
def EventCallbackWrapperInvoke (callback : GState → GState × Option String)
    (s : GState) : GState × Option String :=
  let r := callback { s with disable_management_api := true }
  ({ r.1 with disable_management_api := false }, r.2)

/-- Membership test of `glob_dev_to_aggr.contains(id)`: whether some
still-living aggregate has `id` as a member. -/
def containsKey (l : List (Nat × Nat)) (k : Nat) : Bool := l.any (fun e => e.1 == k)

/-- Lookup in `glob_interfaces`. -/
def findInterface (l : List Interface) (i : Nat) : Option Interface :=
  l.find? (fun e => e.ifid == i)

/-- crossput::UnlinkAggregate (common.hpp): erase the first
`(other, aggregate)` entry of `glob_dev_to_aggr`. -/
def UnlinkAggregate : List (Nat × Nat) → Nat → Nat → List (Nat × Nat)
  | [], _, _ => []
  | e :: rest, aggregate, other =>
    if e = (other, aggregate) then rest
    else e :: UnlinkAggregate rest aggregate other

/-- Effect of `delete` on an interface object plus erasing it from
`glob_interfaces`: the AggregateImpl destructor unlinks every member edge of
the deleted aggregate (a physical device has no member edges). -/
def deleteInterface (s : GState) (i : Nat) (members : List Nat) : GState :=
  { s with
    interfaces := s.interfaces.filter (fun e => !(e.ifid == i)),
    dev_to_aggr := members.foldl (fun acc m => UnlinkAggregate acc i m) s.dev_to_aggr }

/-- One pass of the loop body of crossput::DestroyHierarchy: process the
targets in order; a target that is a member of a still-living aggregate is
deferred to `remaining`, any other target is destroyed on the spot (emitting a
DESTROYED status callback, recorded in the trace); ids missing from the
registry are skipped (the failsafe branch).  Returns (state, trace,
remaining). -/
def destroyPass (s : GState) : List Nat → GState × List Nat × List Nat
  | [] => (s, [], [])
  | i :: rest =>
    if containsKey s.dev_to_aggr i then
      let r := destroyPass s rest
      (r.1, r.2.1, i :: r.2.2)
    else
      match findInterface s.interfaces i with
      | none => destroyPass s rest
      | some intf =>
        let r := destroyPass (deleteInterface s i intf.members) rest
        (r.1, i :: r.2.1, r.2.2)

/-- crossput::DestroyHierarchy (common.hpp): repeat passes until no target
remains; throw when a pass makes no progress (circular aggregation).  `fuel`
bounds the number of passes; any value exceeding the initial target count is
enough, because each non-throwing pass strictly shrinks the target list. -/
def DestroyHierarchy (fuel : Nat) (s : GState) (targets : List Nat) :
    Except String (GState × List Nat) :=
  match fuel with
  | 0 => .error "internal fuel bound exceeded"
  | fuel1 + 1 =>
    let r := destroyPass s targets
    if r.2.2.length = targets.length then
      .error "Unknown error occurred in crossput. Please ensure no circular chain of aggregated input devices exists or any kind of undefined behaviour was caused."
    else if r.2.2.isEmpty then
      .ok (r.1, r.2.1)
    else
      match DestroyHierarchy fuel1 r.1 r.2.2 with
      | .ok p => .ok (p.1, r.2.1 ++ p.2)
      | .error e => .error e

/-- The aggregates that currently list `i` as a member
(the `equal_range(current)` walk of `glob_dev_to_aggr`). -/
def aggrOf (m : List (Nat × Nat)) (i : Nat) : List Nat :=
  (m.filter (fun e => e.1 == i)).map Prod.snd

/-- The gather loop of crossput::DestroyDevice: starting from the main target,
push every aggregate reachable through `glob_dev_to_aggr` onto the target list
(depth-first, the vector is used as a stack via back/pop_back).  `fuel` bounds
the walk; it only matters for circular aggregation, on which the original loop
would not terminate. -/
def gatherTargets (m : List (Nat × Nat)) : Nat → List Nat → List Nat → List Nat
  | _, targets, [] => targets
  | 0, targets, _ => targets
  | fuel + 1, targets, current :: stack =>
    let found := aggrOf m current
    gatherTargets m fuel (targets ++ found) (found.reverse ++ stack)

/-- crossput::DestroyDevice (impl.cpp), CROSSPUT_FEATURE_AGGREGATE build:
guard, resolve the id, then either the no-aggregate shortcut or the
gather-and-destroy-hierarchy path.  Returns the updated state and the trace of
DESTROYED status-callback emissions, in order. -/
def DestroyDevice (s : GState) (i : Nat) : Except String (GState × List Nat) :=
  if s.disable_management_api then
    .error (protectMsg "void crossput::DestroyDevice(const crossput::ID)")
  else if i = 0 then .ok (s, [])
  else
    match findInterface s.interfaces i with
    | none => .ok (s, [])
    | some intf =>
      if containsKey s.dev_to_aggr i then
        let targets := gatherTargets s.dev_to_aggr (2 ^ (s.dev_to_aggr.length + 4)) [i] [i]
        DestroyHierarchy (targets.length + 1) s targets
      else
        .ok (deleteInterface s i intf.members, [i])

/-- crossput::DestroyAllDevices (impl.cpp), CROSSPUT_FEATURE_AGGREGATE build. -/
def DestroyAllDevices (s : GState) : Except String (GState × List Nat) :=
  if s.disable_management_api then
    .error (protectMsg "void crossput::DestroyAllDevices()")
  else if s.interfaces.length = 0 then .ok (s, [])
  else
    let targets := s.interfaces.map (fun e => e.ifid)
    match DestroyHierarchy (targets.length + 1) s targets with
    | .ok p => .ok ({ p.1 with interfaces := [], dev_to_aggr := [] }, p.2)
    | .error e => .error e

/-- crossput::UpdateAllDevices (impl.cpp), CROSSPUT_FEATURE_AGGREGATE build:
update every interface that is not a member of an aggregate.  The per-device
virtual `Update()` is the parameter `updDev` (device dynamics live in the OS
bridge). -/
def UpdateAllDevices (updDev : Nat → GState → GState) (s : GState) :
    Except String GState :=
  if s.disable_management_api then
    .error (protectMsg "void crossput::UpdateAllDevices()")
  else
    .ok (s.interfaces.foldl
      (fun acc e => if containsKey acc.dev_to_aggr e.ifid then acc else updDev e.ifid acc) s)

/-- crossput::UnregisterCallback (impl.cpp): guard, then EraseCallback. -/
def UnregisterCallback (flag : Bool) (ct : CallbackTables) (i : Nat) :
    Except String CallbackTables :=
  if flag then .error (protectMsg "void crossput::UnregisterCallback(const crossput::ID)")
  else .ok { ct with callbacks := ct.callbacks.filter (fun c => !(c == i)) }

/-- crossput::RegisterGlobalStatusCallback (impl.cpp): guard, then
InsertCallback under the global (device 0) non-filtered status key.  Returns
the new tables, the next id counter, and the new callback id. -/
def RegisterGlobalStatusCallback (flag : Bool) (ct : CallbackTables)
    (ctypeid_status id_counter : Nat) : Except String (CallbackTables × Nat × Nat) :=
  if flag then
    .error (protectMsg "crossput::ID crossput::RegisterGlobalStatusCallback(const crossput::StatusCallback)")
  else
    .ok ({ callbacks := ct.callbacks ++ [id_counter],
           mapping := ct.mapping ++ [(keyNoFilter ctypeid_status 0, id_counter)] },
         id_counter + 1, id_counter)

/-! ### Discovery (impl_linux.cpp) -/

/-- One /dev/input/eventX source as seen through the OS bridge: its hardware
id (GetHWID) and the device type deduced from its capability bitfields
(DeduceInputDeviceType). -/
structure EventSource where
  hwid : Nat
  dtype : DeviceType
deriving DecidableEq, Repr

/-- crossput::DiscoverDevices (impl_linux.cpp): guard, then walk the eventX
sources; for each unknown hardware id whose deduced type is mouse, keyboard or
gamepad, construct a device interface and register it.  The local counter
`devices_created` is initialised to zero and returned; note that the analyzer
lambda never increments it, so the returned count is always zero. -/
def DiscoverDevices (sources : List EventSource) (s : GState) :
    Except String (GState × Nat) :=
  if s.disable_management_api then
    .error (protectMsg "size_t crossput::DiscoverDevices()")
  else
    let devices_created : Nat := 0
    let step := fun (acc : GState) (src : EventSource) =>
      if src.hwid ∈ acc.nat_device_ids then acc
      else
        match src.dtype with
        | .UNKNOWN => acc
        | _ =>
          { acc with
            id_counter := acc.id_counter + 1,
            interfaces := acc.interfaces ++ [⟨acc.id_counter, src.dtype, []⟩],
            nat_device_ids := acc.nat_device_ids ++ [src.hwid] }
    .ok (sources.foldl step s, devices_created)

/-! ### Aggregation (impl.cpp) -/

/-- crossput::GetDevice (impl.cpp): id 0 is the reserved sentinel and never
resolves. -/
def GetDevice (s : GState) (i : Nat) : Option Interface :=
  if i ≠ 0 then findInterface s.interfaces i else none

/-- The candidate-elimination loop of crossput::Aggregate for members after
the first: intersect the running candidate set with the aggregates of each
member; a member of no aggregate clears the candidates and breaks; an empty
intersection breaks keeping the previous candidates (mirroring the source,
where the swap is skipped on break). -/
def aggrCandidatesGo (m : List (Nat × Nat)) : List Nat → List Nat → List Nat
  | cand, [] => cand
  | cand, i :: rest =>
    let found := aggrOf m i
    if found.isEmpty then []
    else
      let cache := cand.filter (fun a => a ∈ found)
      if cache.isEmpty then cand
      else aggrCandidatesGo m cache rest

/-- The existing-aggregate candidate set computed by crossput::Aggregate. -/
def aggrCandidates (m : List (Nat × Nat)) : List Nat → List Nat
  | [] => []
  | i :: rest =>
    let found := aggrOf m i
    if found.isEmpty then [] else aggrCandidatesGo m found rest

/-- The member-pointer resolution loop of crossput::Aggregate: every id must
resolve through GetDevice, otherwise the whole call yields nullptr. -/
def resolveAll (s : GState) : List Nat → Option (List Interface)
  | [] => some []
  | i :: rest =>
    match GetDevice s i with
    | none => none
    | some intf => (resolveAll s rest).map (fun l => intf :: l)

/-- crossput::Aggregate (impl.cpp): guard; empty input yields nothing; a
single id is returned unchanged (subject to the type hint); otherwise reuse a
unique existing candidate aggregate, or construct a new aggregate of the
common member type (the BaseInterface constructor reserves the id, the
AggregateImpl constructor links every member).  Returns the device id handed
back to the caller, if any. -/
def Aggregate (s : GState) (ids : List Nat) (hint_type : DeviceType) :
    Except String (GState × Option Nat) :=
  if s.disable_management_api then
    .error (protectMsg "crossput::IDevice* crossput::Aggregate(const std::vector<crossput::ID>&, const crossput::DeviceType)")
  else
    match ids with
    | [] => .ok (s, none)
    | [single] =>
      match GetDevice s single with
      | some intf =>
        if hint_type = DeviceType.UNKNOWN ∨ intf.dtype = hint_type then .ok (s, some single)
        else .ok (s, none)
      | none => .ok (s, none)
    | _ =>
      let cands := aggrCandidates s.dev_to_aggr ids
      let existing : Option Nat :=
        match cands with
        | [c] => if (GetDevice s c).isSome then some c else none
        | _ => none
      match existing with
      | some c => .ok (s, some c)
      | none =>
        match resolveAll s ids with
        | none => .ok (s, none)
        | some [] => .ok (s, none)
        | some (first :: restIntf) =>
          let t := if hint_type = DeviceType.UNKNOWN then first.dtype else hint_type
          if (first :: restIntf).all (fun x => x.dtype == t) then
            if t = DeviceType.UNKNOWN then
              .error "Fatal error occurred during device aggregation - Unexpected crossput::DeviceType value"
            else
              .ok ({ s with
                     id_counter := s.id_counter + 1,
                     interfaces := s.interfaces ++ [⟨s.id_counter, t, ids⟩],
                     dev_to_aggr := s.dev_to_aggr ++ ids.map (fun m => (m, s.id_counter)) },
                   some s.id_counter)
          else .ok (s, none)

/-! ### Aggregate device update (common.hpp, AggregateImpl) -/

/-- A generic aggregate device in the shape of AggregateImpl<TDevice>:
the ordered members, the connected flag, the last-update timestamp, the
motor-to-member table (CROSSPUT_FEATURE_FORCE), and the type-specific
replicated state `rep` cleared by the OnDisconnected override. -/
structure AggDev (μ ρ : Type) where
  members : List μ
  is_connected : Bool
  last_update_timestamp : Nat
  motor_to_member : List (Nat × Nat)
  rep : ρ
deriving DecidableEq, Repr

/-- The member loop of AggregateImpl::Update: update each member in order and
stop at the first member that reports disconnected afterwards (the loop
breaks, leaving later members untouched).  Returns the member list after the
loop and the local `connected` flag. -/
def updateMembersLoop (upd : μ → μ) (isConn : μ → Bool) : List μ → List μ × Bool
  | [] => ([], true)
  | m :: rest =>
    let m1 := upd m
    if isConn m1 then
      let r := updateMembersLoop upd isConn rest
      (m1 :: r.1, r.2)
    else
      (m1 :: rest, false)

/-- The motor-map rebuild of AggregateImpl::Update: append each member's
motors in member order as (member index, member motor index) pairs. -/
def rebuildMotorMap (motorCount : μ → Nat) (ms : List μ) : List (Nat × Nat) :=
  (ms.enum.map (fun p => (List.range (motorCount p.2)).map (fun j => (p.1, j)))).flatten

/-- AggregateImpl::Update (common.hpp): guard; run the member loop; on a
connection-state transition update the flag, and on the transition to
disconnected zero the timestamp, clear the motor map and run the
OnDisconnected override; while connected, rebuild the motor map and refresh
the timestamp (`now` models GenericTimestampNow). -/
def AggregateUpdate (upd : μ → μ) (isConn : μ → Bool) (motorCount : μ → Nat)
    (onDisc : ρ → ρ) (flag : Bool) (now : Nat) (d : AggDev μ ρ) :
    Except String (AggDev μ ρ) :=
  if flag then .error (protectMsg "crossput::IDevice::Update() - Device ID")
  else
    let r := updateMembersLoop upd isConn d.members
    let d1 : AggDev μ ρ := { d with members := r.1 }
    let d2 : AggDev μ ρ :=
      if r.2 ≠ d1.is_connected then
        if !r.2 then
          { d1 with is_connected := r.2, last_update_timestamp := 0,
                    motor_to_member := [], rep := onDisc d1.rep }
        else { d1 with is_connected := r.2 }
      else d1
    if r.2 then
      .ok { d2 with motor_to_member := rebuildMotorMap motorCount r.1,
                    last_update_timestamp := now }
    else .ok d2

/-! ### Mouse state (impl.cpp AggregateMouse, impl_linux.cpp LinuxMouse) -/

/-- crossput::MouseData (common.hpp): accumulated position, scroll, and their
per-update deltas (signed 64-bit in the source). -/
structure MouseData where
  x : Int
  y : Int
  dx : Int
  dy : Int
  sx : Int
  sy : Int
  sdx : Int
  sdy : Int
deriving DecidableEq, Repr

/-- The zero-initialised MouseData (`= {}`). -/
def MouseData.zero : MouseData := ⟨0, 0, 0, 0, 0, 0, 0, 0⟩

/-- AggregateMouse::MouseAccu: the per-member previous-absolute cache. -/
structure MouseAccu where
  x : Int
  y : Int
  sx : Int
  sy : Int
  is_available : Bool
deriving DecidableEq, Repr

/-- The replicated state owned by AggregateMouse: accumulated data, the
per-member caches, the button cells and the button count. -/
structure AggMouseRep where
  data : MouseData
  prev_data : List MouseAccu
  button_data : List TSTV
  button_count : Nat
deriving DecidableEq, Repr

/-- AggregateMouse::OnDisconnected (impl.cpp): memset the per-member caches to
zero, clear the button vector and the button count (the accumulated `data_` is
not touched). -/
def AggMouseRep.OnDisconnected (r : AggMouseRep) : AggMouseRep :=
  { r with prev_data := r.prev_data.map (fun _ => ⟨0, 0, 0, 0, false⟩),
           button_data := [], button_count := 0 }

/-- The replicated state owned by AggregateKeyboard. -/
structure AggKeyboardRep where
  key_data : List TSTV
  num_keys_pressed : Nat
deriving DecidableEq, Repr

/-- AggregateKeyboard::OnDisconnected (impl.cpp): memset the key cells to
zero and reset the pressed counter. -/
def AggKeyboardRep.OnDisconnected (r : AggKeyboardRep) : AggKeyboardRep :=
  { key_data := r.key_data.map (fun _ => TSTV.zero), num_keys_pressed := 0 }

/-- The replicated state owned by AggregateGamepad. -/
structure AggGamepadRep where
  button_data : List TSTV
  thumbstick_values : List (ℚ × ℚ)
  thumbstick_count : Nat
deriving DecidableEq, Repr

/-- AggregateGamepad::OnDisconnected (impl.cpp): memset the button cells to
zero, clear the thumbstick values and count. -/
def AggGamepadRep.OnDisconnected (r : AggGamepadRep) : AggGamepadRep :=
  { button_data := r.button_data.map (fun _ => TSTV.zero),
    thumbstick_values := [], thumbstick_count := 0 }

/-- A mock member device for instantiating the generic AggregateImpl: its
Update() increments a tick counter, its IsConnected() reports a fixed flag,
and it exposes no motors. -/
structure MMouse where
  ticks : Nat
  connected : Bool
deriving DecidableEq, Repr

/-- Update() of the mock member. -/
def MMouse.update (m : MMouse) : MMouse := { m with ticks := m.ticks + 1 }

/-- IsConnected() of the mock member. -/
def MMouse.isConnected (m : MMouse) : Bool := m.connected

/-- GetMotorCount() of the mock member. -/
def MMouse.motorCount (_ : MMouse) : Nat := 0

/-- State of a LinuxMouse (impl_linux.cpp): the LinuxDevice base fields that
matter to the core (connected flag, last-update timestamp, pending event
queue, abstracted) plus the mouse data and the button cells.  The fields gated
by CROSSPUT_FEATURE_FORCE and the file descriptor live in the OS bridge and
are not modelled. -/
structure LinuxMouse where
  is_connected : Bool
  last_update_timestamp : Nat
  pending_events : List Nat
  data : MouseData
  button_data : List TSTV
deriving DecidableEq, Repr

/-- LinuxMouse::OnDisconnected (impl_linux.cpp): memset the button cells to
zero and reset `data_` to the zero value. -/
def LinuxMouse.OnDisconnected (m : LinuxMouse) : LinuxMouse :=
  { m with button_data := m.button_data.map (fun _ => TSTV.zero),
           data := MouseData.zero }

/-- LinuxDevice::Disconnect (impl_linux.cpp), specialised to the mouse: a
no-op when already disconnected; otherwise clear the connected flag, the
last-update timestamp and the pending events, close the device file (bridge
side), and run the OnDisconnected override.  The DISCONNECTED status callback
it then emits is not part of the device state. -/
def LinuxMouse.Disconnect (m : LinuxMouse) : LinuxMouse :=
  if !m.is_connected then m
  else
    LinuxMouse.OnDisconnected
      { m with is_connected := false, last_update_timestamp := 0, pending_events := [] }

/-- LinuxMouse::GetPosition (impl_linux.cpp): when disconnected, return
without assigning the out parameters (the caller's values survive). -/
def LinuxMouse.GetPosition (m : LinuxMouse) (x y : Int) : Int × Int :=
  if !m.is_connected then (x, y) else (m.data.x, m.data.y)

/-- LinuxMouse::GetDelta (impl_linux.cpp). -/
def LinuxMouse.GetDelta (m : LinuxMouse) (x y : Int) : Int × Int :=
  if !m.is_connected then (x, y) else (m.data.dx, m.data.dy)

/-- LinuxMouse::GetScroll (impl_linux.cpp). -/
def LinuxMouse.GetScroll (m : LinuxMouse) (x y : Int) : Int × Int :=
  if !m.is_connected then (x, y) else (m.data.sx, m.data.sy)

/-- LinuxMouse::GetScrollDelta (impl_linux.cpp). -/
def LinuxMouse.GetScrollDelta (m : LinuxMouse) (x y : Int) : Int × Int :=
  if !m.is_connected then (x, y) else (m.data.sdx, m.data.sdy)

/-- AggregateMouse::GetPosition (impl.cpp): same early return as the Linux
mouse, on the aggregate's own `data_`. -/
def AggMouseGetPosition (d : AggDev μ AggMouseRep) (x y : Int) : Int × Int :=
  if !d.is_connected then (x, y) else (d.rep.data.x, d.rep.data.y)

/-- AggregateMouse::GetDelta (impl.cpp). -/
def AggMouseGetDelta (d : AggDev μ AggMouseRep) (x y : Int) : Int × Int :=
  if !d.is_connected then (x, y) else (d.rep.data.dx, d.rep.data.dy)

/-- AggregateMouse::GetScroll (impl.cpp). -/
def AggMouseGetScroll (d : AggDev μ AggMouseRep) (x y : Int) : Int × Int :=
  if !d.is_connected then (x, y) else (d.rep.data.sx, d.rep.data.sy)

/-- AggregateMouse::GetScrollDelta (impl.cpp). -/
def AggMouseGetScrollDelta (d : AggDev μ AggMouseRep) (x y : Int) : Int × Int :=
  if !d.is_connected then (x, y) else (d.rep.data.sdx, d.rep.data.sdy)

/-! ### Force envelope translation (impl_linux.cpp, crossput.hpp) -/

/-- crossput::ForceEnvelope (crossput.hpp): attack/sustain/release times in
seconds with their gains; `MAX_TIME` is 32 seconds. -/
structure ForceEnvelope where
  attack_time : ℚ
  attack_gain : ℚ
  sustain_time : ℚ
  sustain_gain : ℚ
  release_time : ℚ
  release_gain : ℚ
deriving DecidableEq, Repr

/-- ForceEnvelope::MAX_TIME (32.0F). -/
def MAX_TIME : ℚ := 32

/-- std::clamp. -/
def clampQ (v lo hi : ℚ) : ℚ := max lo (min v hi)

/-- The `static_cast<uint16_t>` of a nonnegative float value: truncation
toward zero, reduced modulo 2^16.  (A negative or out-of-range operand is
undefined behaviour in the source; all uses below are in range.) -/
def toU16 (q : ℚ) : Nat := (Int.toNat ⌊q⌋) % 2 ^ 16

/-- The linux ff_envelope descriptor: millisecond lengths and 15-bit levels. -/
structure FFEnvelope where
  attack_length : Nat
  attack_level : Nat
  fade_length : Nat
  fade_level : Nat
deriving DecidableEq, Repr

/-- TranslateEnvelope (impl_linux.cpp): when the requested times sum beyond
MAX_TIME, scale all of them back uniformly; emit millisecond durations (the
sustain time becomes the replay `duration` out-parameter) and 15-bit envelope
levels.  Result: (ff_envelope, duration). -/
def TranslateEnvelope (envelope : ForceEnvelope) : FFEnvelope × Nat :=
  let m : ℚ := 1 / max 1 ((max 0 envelope.attack_time + max 0 envelope.sustain_time
      + max 0 envelope.release_time) * (1 / MAX_TIME))
  let duration := toU16 (envelope.sustain_time * m * 1000)
  ({ attack_length := toU16 (envelope.attack_time * m * 1000),
     attack_level := toU16 (clampQ envelope.attack_gain 0 1 * 32767),
     fade_length := toU16 (envelope.release_time * m * 1000),
     fade_level := toU16 (clampQ envelope.release_gain 0 1 * 32767) }, duration)

/-! ### Concrete fixtures used by the theorems below -/

/-- A fresh zero-initialised cell whose threshold has been set to 0.5. -/
def cellHalf : TSTV := TSTV.zero.SetThreshold (1 / 2)

/-- The analog input sequence of the hysteresis scenario (spec section 8,
scenario 2), with event timestamps 1..5. -/
def hysteresisInputs : List (ℚ × Nat) :=
  [(0.48, 1), (0.49, 2), (0.5125, 3), (0.4875, 4), (0.49, 5)]

/-- A fresh global state: id counter at 1, everything empty, guard clear. -/
def emptyState : GState :=
  { id_counter := 1, interfaces := [], dev_to_aggr := [], nat_device_ids := [],
    disable_management_api := false }

/-- The fresh global state as seen from inside a callback (guard set). -/
def flaggedState : GState :=
  { emptyState with disable_management_api := true }

/-- The state discovered from one unknown mouse-like event source: one new
interface with id 1, its hardware id recorded. -/
def discoveredState : GState :=
  { id_counter := 2, interfaces := [⟨1, DeviceType.MOUSE, []⟩], dev_to_aggr := [],
    nat_device_ids := [7], disable_management_api := false }

/-- The cascade-destruction scenario (spec section 8, scenario 7): devices
D1 = 1 and D2 = 2, aggregate A = 3 over both, aggregate B = 4 over A. -/
def scenarioState : GState :=
  { id_counter := 5,
    interfaces := [⟨1, DeviceType.MOUSE, []⟩, ⟨2, DeviceType.MOUSE, []⟩,
                   ⟨3, DeviceType.MOUSE, [1, 2]⟩, ⟨4, DeviceType.MOUSE, [3]⟩],
    dev_to_aggr := [(1, 3), (2, 3), (3, 4)],
    nat_device_ids := [], disable_management_api := false }

/-- Callback tables holding one device-attached unfiltered callback (id 10 on
device 1) and one global filtered callback (id 20 with discriminator 7), both
of kind 3. -/
def ctC2 : CallbackTables :=
  { callbacks := [10, 20],
    mapping := [(keyNoFilter 3 1, 10), (keyWithFilter 3 0 7, 20)] }

/-- A connected two-member aggregate mouse whose first member will report
disconnected on its next update and whose second member is healthy. -/
def aggMouseC6 : AggDev MMouse AggMouseRep :=
  { members := [⟨0, false⟩, ⟨0, true⟩],
    is_connected := true,
    last_update_timestamp := 77,
    motor_to_member := [(0, 0)],
    rep := { data := ⟨3, 4, 0, 0, 0, 0, 0, 0⟩,
             prev_data := [⟨1, 2, 3, 4, true⟩, ⟨5, 6, 7, 8, true⟩],
             button_data := [], button_count := 2 } }

/-- A connected Linux mouse with nonzero accumulated position, scroll and one
pressed button cell. -/
def mouseC9 : LinuxMouse :=
  { is_connected := true,
    last_update_timestamp := 50,
    pending_events := [],
    data := ⟨5, 6, 1, 1, 7, 8, 2, 2⟩,
    button_data := [{ _a := STATE_BITMASK + 9, _b := 1 / 2, _c := 1 }] }

/-- A disconnected Linux mouse that still holds nonzero data. -/
def mouseC10 : LinuxMouse :=
  { is_connected := false,
    last_update_timestamp := 0,
    pending_events := [],
    data := ⟨5, 6, 1, 1, 7, 8, 2, 2⟩,
    button_data := [] }

/-- A disconnected aggregate mouse that still holds nonzero data. -/
def aggMouseC10 : AggDev MMouse AggMouseRep :=
  { members := [⟨1, false⟩],
    is_connected := false,
    last_update_timestamp := 0,
    motor_to_member := [],
    rep := { data := ⟨5, 6, 1, 1, 7, 8, 2, 2⟩, prev_data := [], button_data := [],
             button_count := 0 } }

/-! ## Theorems -/

/-- SetValue leaves the packed timestamp-state word untouched. -/
theorem TSTV.State_SetValue (t : TSTV) (v : ℚ) : (t.SetValue v).State = t.State := rfl

/-- SetTimestampState stores exactly the given digital state in bit 63. -/
theorem TSTV.State_SetTimestampState (t : TSTV) (ts : Nat) (s : Bool) :
    (t.SetTimestampState ts s).State = s := by
  have hp : STATE_BITMASK = 9223372036854775808 := by norm_num [STATE_BITMASK]
  cases s <;> simp [TSTV.SetTimestampState, TSTV.State, hp] <;> try omega

/-- The digital state of a cell after Modify is the anti-bounce rule applied
to the new value, the threshold and the previous digital state. -/
theorem modify_state (t : TSTV) (v : ℚ) (ts : Nat) :
    ((t.Modify v ts).1).State = AnalogToDigital v t.Threshold t.State := by
  simp only [TSTV.Modify]
  rcases hvf : (decide (v ≠ t.Value) || decide (t.Timestamp = 0)) with _ | _ <;>
    rcases hsf : ((AnalogToDigital v t.Threshold t.State != t.State)
        || decide (t.Timestamp = 0)) with _ | _ <;>
    simp only [hvf, hsf, if_true, if_false, Bool.false_eq_true, ite_false, ite_true,
      TSTV.State_SetValue, TSTV.State_SetTimestampState]
  · have h1 : (AnalogToDigital v t.Threshold t.State != t.State) = false := by
      rcases Bool.or_eq_false_iff.mp hsf with ⟨h, _⟩
      exact h
    exact (bne_eq_false_iff_eq.mp h1).symm
  · have h1 : (AnalogToDigital v t.Threshold t.State != t.State) = false := by
      rcases Bool.or_eq_false_iff.mp hsf with ⟨h, _⟩
      exact h
    exact (bne_eq_false_iff_eq.mp h1).symm

/-- C1: the spec claims DiscoverDevices returns the number of newly created
device interfaces.  The Linux implementation declares the counter
`devices_created`, captures it in the analyzer lambda, but never increments
it: discovering one unknown mouse-like source creates one interface, yet the
call returns 0.  (The public header documents the return value as the number
of new devices, and the Windows implementation does increment its counter, so
this is a defect of the code, not of the spec.) -/
theorem C1_discover_returns_zero :
    DiscoverDevices [⟨7, DeviceType.MOUSE⟩] emptyState = .ok (discoveredState, 0)
    ∧ discoveredState.interfaces.length = 1 := ⟨rfl, rfl⟩

/-- The loop of ExecuteCallbacks_Impl keeps exactly the entries that miss the
key or are still live, and invokes exactly the live entries under the key, in
mapping order. -/
theorem ExecuteCallbacksImplGo_eq (live : List Nat) (key : EventCallbackKey) :
    ∀ m : List (EventCallbackKey × Nat),
      ExecuteCallbacksImplGo live key m =
        (m.filter (fun e => !(decide (e.1 = key)) || decide (e.2 ∈ live)),
         (m.filter (fun e => decide (e.1 = key) && decide (e.2 ∈ live))).map Prod.snd)
  | [] => rfl
  | e :: rest => by
    have ih := ExecuteCallbacksImplGo_eq live key rest
    by_cases h1 : e.1 = key <;> by_cases h2 : e.2 ∈ live <;>
      simp [ExecuteCallbacksImplGo, h1, h2, ih]

/-- The trace of one ExecuteCallbacks_Impl run is its live bucket. -/
theorem ExecuteCallbacksImpl_trace (ct : CallbackTables) (key : EventCallbackKey) :
    (ExecuteCallbacksImpl ct key).2 = liveBucket ct key := by
  simp [ExecuteCallbacksImpl, ExecuteCallbacksImplGo_eq, liveBucket]

/-- A dispatch under one key does not disturb the bucket of a different key
(lazy cleanup only erases dead entries of the dispatched key). -/
theorem liveBucket_after (ct : CallbackTables) (key1 key2 : EventCallbackKey)
    (h : key2 ≠ key1) :
    liveBucket (ExecuteCallbacksImpl ct key1).1 key2 = liveBucket ct key2 := by
  simp only [ExecuteCallbacksImpl, ExecuteCallbacksImplGo_eq, liveBucket]
  rw [List.filter_filter]
  apply congrArg
  apply List.filter_congr
  intro e _
  by_cases h2 : e.1 = key2
  · have h1 : e.1 ≠ key1 := by rw [h2]; exact h
    simp [h1, h2]
    intro _
    exact Or.inl h
  · simp [h2]

/-- C2 counterexample: with one unfiltered callback attached to device 1
(id 10) and one filtered global callback (id 20), a dispatch on device 1 with
the matching discriminator invokes 20 before 10, whereas the order claimed by
the spec (device-specific before global) would invoke 10 before 20. -/
theorem C2_counterexample :
    (DispatchFilteredEvent ctC2 3 1 7).2 = [20, 10]
    ∧ SpecDispatchOrder ctC2 3 1 7 = [10, 20]
    ∧ (DispatchFilteredEvent ctC2 3 1 7).2 ≠ SpecDispatchOrder ctC2 3 1 7 := by
  refine ⟨rfl, rfl, ?_⟩
  intro h
  rw [show (DispatchFilteredEvent ctC2 3 1 7).2 = [20, 10] from rfl,
    show SpecDispatchOrder ctC2 3 1 7 = [10, 20] from rfl] at h
  simp at h

/-- C2 (amended): for every dispatched event of kind K on device D with
discriminator V, callback invocations are issued in the priority order
(device D, kind K, filter V), then (device 0, kind K, filter V), then
(device D, kind K, no filter), then (device 0, kind K, no filter): filtered
callbacks take priority over unfiltered ones, and within each of those the
device-specific ones over the global ones. -/
theorem C2_dispatch_priority_order (ct : CallbackTables) (k dev filt : Nat)
    (hdev : dev ≠ 0) :
    (DispatchFilteredEvent ct k dev filt).2 =
      liveBucket ct (keyWithFilter k dev filt)
        ++ liveBucket ct (keyWithFilter k 0 filt)
        ++ liveBucket ct (keyNoFilter k dev)
        ++ liveBucket ct (keyNoFilter k 0) := by
  have h21 : keyWithFilter k 0 filt ≠ keyWithFilter k dev filt := by
    simp [keyWithFilter]
    intro h
    exact absurd h.symm hdev
  have h31 : keyNoFilter k dev ≠ keyWithFilter k dev filt := by
    simp [keyNoFilter, keyWithFilter]
  have h32 : keyNoFilter k dev ≠ keyWithFilter k 0 filt := by
    simp [keyNoFilter, keyWithFilter]
  have h41 : keyNoFilter k 0 ≠ keyWithFilter k dev filt := by
    simp [keyNoFilter, keyWithFilter]
  have h42 : keyNoFilter k 0 ≠ keyWithFilter k 0 filt := by
    simp [keyNoFilter, keyWithFilter]
  have h43 : keyNoFilter k 0 ≠ keyNoFilter k dev := by
    simp [keyNoFilter]
    intro h
    exact absurd h.symm hdev
  simp only [DispatchFilteredEvent, ExecuteCallbacksWithFilter, ExecuteCallbacks,
    ExecuteCallbacksImpl_trace, liveBucket_after _ _ _ h21, liveBucket_after _ _ _ h31,
    liveBucket_after _ _ _ h32, liveBucket_after _ _ _ h41, liveBucket_after _ _ _ h42,
    liveBucket_after _ _ _ h43, List.append_assoc]

/-- C2 witness: the amended dispatch order at the concrete tables. -/
theorem C2_witness :
    (DispatchFilteredEvent ctC2 3 1 7).2 =
      liveBucket ctC2 (keyWithFilter 3 1 7)
        ++ liveBucket ctC2 (keyWithFilter 3 0 7)
        ++ liveBucket ctC2 (keyNoFilter 3 1)
        ++ liveBucket ctC2 (keyNoFilter 3 0) :=
  C2_dispatch_priority_order ctC2 3 1 7 (by decide)

/-- C3 counterexample: in the scenario with devices D1 = 1 and D2 = 2,
aggregate A = 3 over both and aggregate B = 4 over A, destroying D1 emits
DESTROYED callbacks in the order B, A, D1 and not, as claimed, D1, A, B. -/
theorem C3_counterexample :
    (DestroyDevice scenarioState 1).map (fun p => p.2) = .ok [4, 3, 1]
    ∧ [4, 3, 1] ≠ [1, 3, 4] := ⟨rfl, by decide⟩

/-- C3 (amended): destroying D1 destroys B first, then A, then D1, in that
order, emitting a DESTROYED status callback for each of the three and leaving
only D2 registered.  DestroyHierarchy destroys, in each pass, exactly the
targets that are NOT members of a still-living aggregate, so the outermost
aggregate goes first and the triggering device goes last. -/
theorem C3_cascade_destroy_order :
    DestroyDevice scenarioState 1 =
      .ok ({ id_counter := 5, interfaces := [⟨2, DeviceType.MOUSE, []⟩],
             dev_to_aggr := [], nat_device_ids := [],
             disable_management_api := false }, [4, 3, 1]) := rfl

/-- C4 counterexample: on a cell with threshold 0.5, the value sequence
0.48, 0.49, 0.5125, 0.4875, 0.49 does not produce the claimed digital states
false, false, true, true, false: the comparison of the rule is strict, and
0.5125 does not strictly exceed threshold + margin = 0.5125 (in IEEE binary32
arithmetic both sides even round to the identical float), so the state never
becomes pressed. -/
theorem C4_counterexample :
    modifySeqStates cellHalf hysteresisInputs ≠ [false, false, true, true, false] := by
  norm_num [modifySeqStates, hysteresisInputs, TSTV.Modify, AnalogToDigital, TSTV.zero,
    cellHalf, TSTV.SetThreshold, TSTV.SetTimestampState, TSTV.SetValue, TSTV.State,
    TSTV.Threshold, TSTV.Value, TSTV.Timestamp, STATE_BITMASK]

/-- C4 (amended): the digital state after each Modify call equals the
hysteresis rule applied to the value of that call, the threshold of the cell
and the previous digital state; the rule uses margin
m = min(t, 1 - t) * 0.025 and is strict (true iff v > t - m when pressed,
else iff v > t + m).  Consequently, for a cell with threshold 0.5, the value
sequence 0.48, 0.49, 0.5125, 0.4875, 0.49 produces the digital states false,
false, false, false, false, since 0.5125 is not strictly greater than
t + m = 0.5125. -/
theorem C4_hysteresis :
    (∀ (t : TSTV) (v : ℚ) (ts : Nat),
        ((t.Modify v ts).1).State = AnalogToDigital v t.Threshold t.State)
    ∧ (∀ (v threshold : ℚ) (s : Bool),
        AnalogToDigital v threshold s =
          decide (v > (if s then threshold - min threshold (1 - threshold) * (25 / 1000)
                       else threshold + min threshold (1 - threshold) * (25 / 1000))))
    ∧ modifySeqStates cellHalf hysteresisInputs = [false, false, false, false, false] := by
  refine ⟨modify_state, fun v threshold s => rfl, ?_⟩
  norm_num [modifySeqStates, hysteresisInputs, TSTV.Modify, AnalogToDigital, TSTV.zero,
    cellHalf, TSTV.SetThreshold, TSTV.SetTimestampState, TSTV.SetValue, TSTV.State,
    TSTV.Threshold, TSTV.Value, TSTV.Timestamp, STATE_BITMASK]

/-- The uint32 increment of a counter away from the wrap boundary. -/
theorem u32succ_eq (c : Nat) (h : c + 1 < 2 ^ 32) : u32succ c = c + 1 := by
  have hp : (2 : Nat) ^ 32 = 4294967296 := by norm_num
  unfold u32succ
  rw [hp] at h ⊢
  omega

/-- The uint32 decrement of a positive in-range counter. -/
theorem u32pred_eq (c : Nat) (h0 : 0 < c) (h1 : c < 2 ^ 32) : u32pred c = c - 1 := by
  have hp : (2 : Nat) ^ 32 = 4294967296 := by norm_num
  unfold u32pred
  rw [hp] at h1 ⊢
  omega

/-- C5: the keyboard Modify reports modified iff the analog value changed, the
digital state changed, or this is the first write (stored timestamp 0) with
new digital state true; the shared keys-pressed counter is incremented on a
digital transition to pressed, decremented on a transition to released except
on the first write, and in particular a first write whose resulting digital
state is false leaves the counter unchanged. -/
theorem C5_modify_kbd_counter (t : TSTV) (v : ℚ) (ts c : Nat) :
    ((t.ModifyKbd v ts c).2.2.1 =
      (decide (v ≠ t.Value) || (AnalogToDigital v t.Threshold t.State != t.State)
        || (decide (t.Timestamp = 0) && AnalogToDigital v t.Threshold t.State)))
    ∧ (t.State = false → AnalogToDigital v t.Threshold t.State = true → c + 1 < 2 ^ 32 →
        (t.ModifyKbd v ts c).2.2.2 = c + 1)
    ∧ (t.State = true → AnalogToDigital v t.Threshold t.State = false →
        t.Timestamp ≠ 0 → 0 < c → c < 2 ^ 32 →
        (t.ModifyKbd v ts c).2.2.2 = c - 1)
    ∧ (t.Timestamp = 0 → AnalogToDigital v t.Threshold t.State = false →
        (t.ModifyKbd v ts c).2.2.2 = c) := by
  refine ⟨?_, ?_, ?_, ?_⟩
  · simp only [TSTV.ModifyKbd, Bool.or_assoc]
  · intro hold hns hc
    rw [hold] at hns
    simp only [TSTV.ModifyKbd, hold, hns]
    simp [hns, u32succ_eq c hc]
  · intro hold hns hts h0 h1
    rw [hold] at hns
    simp only [TSTV.ModifyKbd, hold, hns]
    simp [hns, hts, u32pred_eq c h0 h1]
  · intro hts hns
    simp only [TSTV.ModifyKbd, hts, hns]
    simp

/-- C5 witness: a first write of value 1 on a fresh cell with threshold 0.5
is a transition to pressed and increments the counter from 3 to 4. -/
theorem C5_witness :
    (cellHalf.ModifyKbd 1 5 3).2.2.2 = 4 :=
  (C5_modify_kbd_counter cellHalf 1 5 3).2.1 rfl
    (by norm_num [AnalogToDigital, cellHalf, TSTV.zero, TSTV.SetThreshold,
      TSTV.Threshold, TSTV.State, STATE_BITMASK])
    (by norm_num)

/-- C6 counterexample: a connected two-member aggregate whose first member
reports disconnected after its update leaves the second member not updated
(its tick counter stays 0, although updating it would raise it), contradicting
the claim that every member is updated on each Update call. -/
theorem C6_counterexample :
    (AggregateUpdate MMouse.update MMouse.isConnected MMouse.motorCount
        AggMouseRep.OnDisconnected false 100 aggMouseC6).map (fun d => d.members)
      = .ok [⟨1, false⟩, ⟨0, true⟩]
    ∧ MMouse.update ⟨0, true⟩ ≠ (⟨0, true⟩ : MMouse) := ⟨rfl, by decide⟩

/-- The member loop of AggregateImpl::Update maps Update over all members when
every member stays connected. -/
theorem updateMembersLoop_all (upd : μ → μ) (isConn : μ → Bool) :
    ∀ ms : List μ, (∀ x ∈ ms, isConn (upd x) = true) →
      updateMembersLoop upd isConn ms = (ms.map upd, true)
  | [], _ => rfl
  | m :: rest, h => by
    have hm := h m (List.mem_cons_self m rest)
    have ih := updateMembersLoop_all upd isConn rest
      (fun x hx => h x (List.mem_cons_of_mem _ hx))
    simp [updateMembersLoop, hm, ih]

/-- The member loop of AggregateImpl::Update stops right after the first
member that reports disconnected, leaving the remaining members untouched. -/
theorem updateMembersLoop_break (upd : μ → μ) (isConn : μ → Bool) (m : μ)
    (hm : isConn (upd m) = false) :
    ∀ pre post : List μ, (∀ x ∈ pre, isConn (upd x) = true) →
      updateMembersLoop upd isConn (pre ++ m :: post) =
        (pre.map upd ++ upd m :: post, false)
  | [], post, _ => by simp [updateMembersLoop, hm]
  | p :: pre, post, h => by
    have hp := h p (List.mem_cons_self p pre)
    have ih := updateMembersLoop_break upd isConn m hm pre post
      (fun x hx => h x (List.mem_cons_of_mem _ hx))
    simp [updateMembersLoop, hp, ih]

/-- C6 (amended): an aggregate Update updates the members in order only up to
and including the first member observed disconnected (later members are not
updated); when all members stay connected it updates every member, becomes
connected, refreshes the timestamp and rebuilds the motor map; when a member
is observed disconnected it becomes disconnected, and on that transition (only)
it zeroes the timestamp, clears the motor map and clears its replicated state
through the OnDisconnected override. -/
theorem C6_aggregate_update {μ ρ : Type} (upd : μ → μ) (isConn : μ → Bool)
    (mc : μ → Nat) (onDisc : ρ → ρ) (now : Nat) (d : AggDev μ ρ) :
    ((∀ x ∈ d.members, isConn (upd x) = true) →
      AggregateUpdate upd isConn mc onDisc false now d =
        .ok { d with members := d.members.map upd, is_connected := true,
                     last_update_timestamp := now,
                     motor_to_member := rebuildMotorMap mc (d.members.map upd) })
    ∧ (∀ pre m post, d.members = pre ++ m :: post →
        (∀ x ∈ pre, isConn (upd x) = true) → isConn (upd m) = false →
        AggregateUpdate upd isConn mc onDisc false now d =
          .ok { d with
                members := pre.map upd ++ upd m :: post,
                is_connected := false,
                last_update_timestamp := if d.is_connected then 0 else d.last_update_timestamp,
                motor_to_member := if d.is_connected then [] else d.motor_to_member,
                rep := if d.is_connected then onDisc d.rep else d.rep }) := by
  constructor
  · intro hall
    have hloop := updateMembersLoop_all upd isConn d.members hall
    cases hconn : d.is_connected <;>
      simp [AggregateUpdate, hloop, hconn]
  · intro pre m post hsplit hpre hm
    have hloop := updateMembersLoop_break upd isConn m hm pre post hpre
    cases hconn : d.is_connected <;>
      simp [AggregateUpdate, hsplit, hloop, hconn]

/-- C6 witness: the amended Update behaviour at the concrete two-member
aggregate whose first member disconnects. -/
theorem C6_witness :
    AggregateUpdate MMouse.update MMouse.isConnected MMouse.motorCount
        AggMouseRep.OnDisconnected false 100 aggMouseC6 =
      .ok { aggMouseC6 with
            members := [⟨1, false⟩, ⟨0, true⟩],
            is_connected := false,
            last_update_timestamp := 0,
            motor_to_member := [],
            rep := aggMouseC6.rep.OnDisconnected } := by
  have h := (C6_aggregate_update MMouse.update MMouse.isConnected MMouse.motorCount
      AggMouseRep.OnDisconnected 100 aggMouseC6).2 [] ⟨0, false⟩ [⟨0, true⟩] rfl
      (by simp) rfl
  simpa [MMouse.update] using h

/-- C7: every management-API operation invoked while the reentrancy guard is
set fails with the explicit ProtectManagementAPI error naming the offending
operation and returns no mutated state (in the source the guard check is the
first statement of each operation, before any mutation), and
EventCallbackWrapper::Invoke clears the guard flag on both the normal and the
exceptional exit from the user callback. -/
theorem C7_reentrancy_guard :
    (∀ s : GState, s.disable_management_api = true →
      (∀ i, DestroyDevice s i =
          .error (protectMsg "void crossput::DestroyDevice(const crossput::ID)"))
      ∧ DestroyAllDevices s = .error (protectMsg "void crossput::DestroyAllDevices()")
      ∧ (∀ updDev, UpdateAllDevices updDev s =
          .error (protectMsg "void crossput::UpdateAllDevices()"))
      ∧ (∀ sources, DiscoverDevices sources s =
          .error (protectMsg "size_t crossput::DiscoverDevices()"))
      ∧ (∀ ids hint, Aggregate s ids hint =
          .error (protectMsg "crossput::IDevice* crossput::Aggregate(const std::vector<crossput::ID>&, const crossput::DeviceType)")))
    ∧ (∀ (ct : CallbackTables) (i : Nat), UnregisterCallback true ct i =
        .error (protectMsg "void crossput::UnregisterCallback(const crossput::ID)"))
    ∧ (∀ (ct : CallbackTables) (k idc : Nat), RegisterGlobalStatusCallback true ct k idc =
        .error (protectMsg "crossput::ID crossput::RegisterGlobalStatusCallback(const crossput::StatusCallback)"))
    ∧ (∀ (μ ρ : Type) (upd : μ → μ) (isConn : μ → Bool) (mc : μ → Nat) (onDisc : ρ → ρ)
        (now : Nat) (d : AggDev μ ρ),
        AggregateUpdate upd isConn mc onDisc true now d =
          .error (protectMsg "crossput::IDevice::Update() - Device ID"))
    ∧ (∀ (cb : GState → GState × Option String) (s : GState),
        (EventCallbackWrapperInvoke cb s).1.disable_management_api = false) := by
  refine ⟨fun s h => ⟨fun i => ?_, ?_, fun updDev => ?_, fun sources => ?_,
      fun ids hint => ?_⟩, fun ct i => rfl, fun ct k idc => rfl,
      fun μ ρ upd isConn mc onDisc now d => rfl, fun cb s => rfl⟩ <;>
    simp [DestroyDevice, DestroyAllDevices, UpdateAllDevices, DiscoverDevices,
      Aggregate, h]

/-- C7 witness: destroying a device from inside a callback fails with the
explicit guard error. -/
theorem C7_witness :
    DestroyDevice flaggedState 1 =
      .error (protectMsg "void crossput::DestroyDevice(const crossput::ID)") :=
  ((C7_reentrancy_guard.1 flaggedState rfl).1) 1

/-- C8 counterexample: translating the envelope attack = sustain = release =
20 s produces the native millisecond durations 10666 + 10666 + 10666 = 31998,
which is not exactly the claimed 32 seconds (32000 ms): the uniformly scaled
times 32000/3 ms are truncated to integers. -/
theorem C8_counterexample :
    TranslateEnvelope ⟨20, 1, 20, 1, 20, 1⟩ = (⟨10666, 32767, 10666, 32767⟩, 10666)
    ∧ 10666 + 10666 + 10666 ≠ 32000 := by
  constructor
  · have hmax0 : max (0 : ℚ) 20 = 20 := by norm_num
    have hmax1 : max (1 : ℚ) ((20 + 20 + 20) * (1 / MAX_TIME)) = 15 / 8 := by
      rw [max_eq_right (by norm_num [MAX_TIME] :
        (1 : ℚ) ≤ (20 + 20 + 20) * (1 / MAX_TIME))]
      norm_num [MAX_TIME]
    have hq : (20 : ℚ) * (1 / (15 / 8)) * 1000 = 32000 / 3 := by norm_num
    have hfl : ⌊(32000 / 3 : ℚ)⌋ = 10666 := by
      rw [Int.floor_eq_iff] <;> norm_num
    have hcl : clampQ 1 0 1 * 32767 = (32767 : ℚ) := by norm_num [clampQ]
    have hfl2 : ⌊(32767 : ℚ)⌋ = 32767 := by norm_num
    simp only [TranslateEnvelope, hmax0, hmax1, hq, toU16, hfl, hcl, hfl2]
    decide
  · decide

/-- Truncation of a scaled time to a native uint16 millisecond count: for
values in [0, 32000] the modulo is the identity and the result is the floor,
which undershoots the exact value by less than one. -/
theorem toU16_eq (q : ℚ) (h0 : 0 ≤ q) (h1 : q ≤ 32000) :
    toU16 q = (⌊q⌋).toNat ∧ ((⌊q⌋).toNat : ℚ) ≤ q ∧ q - 1 < ((⌊q⌋).toNat : ℚ)
    ∧ (⌊q⌋).toNat ≤ 32000 := by
  have hfl0 : (0 : ℤ) ≤ ⌊q⌋ := Int.floor_nonneg.mpr h0
  have hfle : ((⌊q⌋).toNat : ℤ) = ⌊q⌋ := Int.toNat_of_nonneg hfl0
  have hcast : ((⌊q⌋).toNat : ℚ) = ((⌊q⌋ : ℤ) : ℚ) := by
    exact_mod_cast congrArg (fun z : ℤ => (z : ℚ)) hfle
  have hle : ((⌊q⌋).toNat : ℚ) ≤ q := by
    rw [hcast]; exact Int.floor_le q
  have hlt : q - 1 < ((⌊q⌋).toNat : ℚ) := by
    rw [hcast]; exact Int.sub_one_lt_floor q
  have hub : (⌊q⌋).toNat ≤ 32000 := by
    rw [Int.toNat_le]
    have h2 : ⌊q⌋ ≤ ⌊(32000 : ℚ)⌋ := Int.floor_le_floor h1
    simpa using h2
  refine ⟨?_, hle, hlt, hub⟩
  unfold toU16
  have h3 : (⌊q⌋).toNat < 2 ^ 16 := by omega
  exact Nat.mod_eq_of_lt h3

/-- C8 (amended): for nonnegative envelope times summing to T > 32 s, the
translation scales all three times by the uniform factor 32 / T (so the
scaled times sum to exactly 32 s and the relative proportions are preserved
before integer conversion); each native duration is the scaled time in
milliseconds truncated to an integer, so the three native durations sum to at
most 32000 ms and to more than 32000 - 3 ms. -/
theorem C8_envelope_scaling (a ag s sg r rg : ℚ)
    (ha : 0 ≤ a) (hs : 0 ≤ s) (hr : 0 ≤ r) (hT : 32 < a + s + r) :
    (a * (32 / (a + s + r)) + s * (32 / (a + s + r)) + r * (32 / (a + s + r)) = 32)
    ∧ (a * (32 / (a + s + r))) * s = (s * (32 / (a + s + r))) * a
    ∧ (s * (32 / (a + s + r))) * r = (r * (32 / (a + s + r))) * s
    ∧ (TranslateEnvelope ⟨a, ag, s, sg, r, rg⟩).1.attack_length
        = (⌊a * (32 / (a + s + r)) * 1000⌋).toNat
    ∧ (TranslateEnvelope ⟨a, ag, s, sg, r, rg⟩).2
        = (⌊s * (32 / (a + s + r)) * 1000⌋).toNat
    ∧ (TranslateEnvelope ⟨a, ag, s, sg, r, rg⟩).1.fade_length
        = (⌊r * (32 / (a + s + r)) * 1000⌋).toNat
    ∧ 31998 ≤ (TranslateEnvelope ⟨a, ag, s, sg, r, rg⟩).1.attack_length
        + (TranslateEnvelope ⟨a, ag, s, sg, r, rg⟩).2
        + (TranslateEnvelope ⟨a, ag, s, sg, r, rg⟩).1.fade_length
    ∧ (TranslateEnvelope ⟨a, ag, s, sg, r, rg⟩).1.attack_length
        + (TranslateEnvelope ⟨a, ag, s, sg, r, rg⟩).2
        + (TranslateEnvelope ⟨a, ag, s, sg, r, rg⟩).1.fade_length ≤ 32000 := by
  have hT0 : (0 : ℚ) < a + s + r := by linarith
  have hTne : a + s + r ≠ 0 := ne_of_gt hT0
  have hsum : a * (32 / (a + s + r)) + s * (32 / (a + s + r))
      + r * (32 / (a + s + r)) = 32 := by
    field_simp
    ring
  have hmaxa : max (0 : ℚ) a = a := max_eq_right ha
  have hmaxs : max (0 : ℚ) s = s := max_eq_right hs
  have hmaxr : max (0 : ℚ) r = r := max_eq_right hr
  have hmax1 : max (1 : ℚ) ((a + s + r) * (1 / MAX_TIME)) = (a + s + r) / 32 := by
    rw [show MAX_TIME = (32 : ℚ) from rfl]
    rw [max_eq_right]
    · ring
    · nlinarith
  have hm : (1 : ℚ) / max 1 ((a + s + r) * (1 / MAX_TIME)) = 32 / (a + s + r) := by
    rw [hmax1, one_div_div]
  have hXa : 0 ≤ a * (32 / (a + s + r)) * 1000 := by positivity
  have hXs : 0 ≤ s * (32 / (a + s + r)) * 1000 := by positivity
  have hXr : 0 ≤ r * (32 / (a + s + r)) * 1000 := by positivity
  have hsum1000 : a * (32 / (a + s + r)) * 1000 + s * (32 / (a + s + r)) * 1000
      + r * (32 / (a + s + r)) * 1000 = 32000 := by
    field_simp
    ring
  have hUa : a * (32 / (a + s + r)) * 1000 ≤ 32000 := by nlinarith
  have hUs : s * (32 / (a + s + r)) * 1000 ≤ 32000 := by nlinarith
  have hUr : r * (32 / (a + s + r)) * 1000 ≤ 32000 := by nlinarith
  obtain ⟨hea, hla, hga, hba⟩ := toU16_eq _ hXa hUa
  obtain ⟨hes, hls, hgs, hbs⟩ := toU16_eq _ hXs hUs
  obtain ⟨her, hlr, hgr, hbr⟩ := toU16_eq _ hXr hUr
  have htr : (TranslateEnvelope ⟨a, ag, s, sg, r, rg⟩).1.attack_length
        = (⌊a * (32 / (a + s + r)) * 1000⌋).toNat
      ∧ (TranslateEnvelope ⟨a, ag, s, sg, r, rg⟩).2
        = (⌊s * (32 / (a + s + r)) * 1000⌋).toNat
      ∧ (TranslateEnvelope ⟨a, ag, s, sg, r, rg⟩).1.fade_length
        = (⌊r * (32 / (a + s + r)) * 1000⌋).toNat := by
    simp only [TranslateEnvelope, hmaxa, hmaxs, hmaxr, hm]
    exact ⟨hea, hes, her⟩
  obtain ⟨hta, hts, htrr⟩ := htr
  refine ⟨hsum, by ring, by ring, hta, hts, htrr, ?_, ?_⟩
  · rw [hta, hts, htrr]
    have hq : (31997 : ℚ) < ((⌊a * (32 / (a + s + r)) * 1000⌋).toNat : ℚ)
        + ((⌊s * (32 / (a + s + r)) * 1000⌋).toNat : ℚ)
        + ((⌊r * (32 / (a + s + r)) * 1000⌋).toNat : ℚ) := by linarith
    have hn : (31997 : ℕ) < (⌊a * (32 / (a + s + r)) * 1000⌋).toNat
        + (⌊s * (32 / (a + s + r)) * 1000⌋).toNat
        + (⌊r * (32 / (a + s + r)) * 1000⌋).toNat := by exact_mod_cast hq
    omega
  · rw [hta, hts, htrr]
    have hq : ((⌊a * (32 / (a + s + r)) * 1000⌋).toNat : ℚ)
        + ((⌊s * (32 / (a + s + r)) * 1000⌋).toNat : ℚ)
        + ((⌊r * (32 / (a + s + r)) * 1000⌋).toNat : ℚ) ≤ 32000 := by linarith
    exact_mod_cast hq

/-- C8 witness: the amended scaling at attack = sustain = release = 20 s. -/
theorem C8_witness :
    ((20 : ℚ) * (32 / (20 + 20 + 20)) + 20 * (32 / (20 + 20 + 20))
        + 20 * (32 / (20 + 20 + 20)) = 32)
    ∧ ((20 : ℚ) * (32 / (20 + 20 + 20))) * 20 = ((20 : ℚ) * (32 / (20 + 20 + 20))) * 20
    ∧ ((20 : ℚ) * (32 / (20 + 20 + 20))) * 20 = ((20 : ℚ) * (32 / (20 + 20 + 20))) * 20
    ∧ (TranslateEnvelope ⟨20, 1, 20, 1, 20, 1⟩).1.attack_length
        = (⌊(20 : ℚ) * (32 / (20 + 20 + 20)) * 1000⌋).toNat
    ∧ (TranslateEnvelope ⟨20, 1, 20, 1, 20, 1⟩).2
        = (⌊(20 : ℚ) * (32 / (20 + 20 + 20)) * 1000⌋).toNat
    ∧ (TranslateEnvelope ⟨20, 1, 20, 1, 20, 1⟩).1.fade_length
        = (⌊(20 : ℚ) * (32 / (20 + 20 + 20)) * 1000⌋).toNat
    ∧ 31998 ≤ (TranslateEnvelope ⟨20, 1, 20, 1, 20, 1⟩).1.attack_length
        + (TranslateEnvelope ⟨20, 1, 20, 1, 20, 1⟩).2
        + (TranslateEnvelope ⟨20, 1, 20, 1, 20, 1⟩).1.fade_length
    ∧ (TranslateEnvelope ⟨20, 1, 20, 1, 20, 1⟩).1.attack_length
        + (TranslateEnvelope ⟨20, 1, 20, 1, 20, 1⟩).2
        + (TranslateEnvelope ⟨20, 1, 20, 1, 20, 1⟩).1.fade_length ≤ 32000 :=
  C8_envelope_scaling 20 1 20 1 20 1 (by norm_num) (by norm_num) (by norm_num)
    (by norm_num)

/-- C9 counterexample: disconnecting a connected mouse with accumulated
position x = 5 zeroes the accumulated position instead of letting it persist
as claimed. -/
theorem C9_counterexample :
    mouseC9.data.x = 5 ∧ (LinuxMouse.Disconnect mouseC9).data.x = 0
    ∧ (LinuxMouse.Disconnect mouseC9).data.x ≠ mouseC9.data.x := ⟨rfl, rfl, by decide⟩

/-- C9 (amended): on the disconnect transition all button cells are zeroed AND
the accumulated mouse positions and scroll totals are reset to zero as well
(OnDisconnected assigns the zero value to the whole MouseData record); the
timestamp and pending event queue are cleared too. -/
theorem C9_disconnect_clears (m : LinuxMouse) (h : m.is_connected = true) :
    m.Disconnect.is_connected = false
    ∧ m.Disconnect.button_data = m.button_data.map (fun _ => TSTV.zero)
    ∧ m.Disconnect.data = MouseData.zero
    ∧ m.Disconnect.last_update_timestamp = 0
    ∧ m.Disconnect.pending_events = [] := by
  simp [LinuxMouse.Disconnect, LinuxMouse.OnDisconnected, h]

/-- C9 witness: the clearing behaviour at the concrete connected mouse. -/
theorem C9_witness :
    mouseC9.Disconnect.is_connected = false
    ∧ mouseC9.Disconnect.button_data = mouseC9.button_data.map (fun _ => TSTV.zero)
    ∧ mouseC9.Disconnect.data = MouseData.zero
    ∧ mouseC9.Disconnect.last_update_timestamp = 0
    ∧ mouseC9.Disconnect.pending_events = [] :=
  C9_disconnect_clears mouseC9 rfl

/-- C10: all four position and scroll getters of a disconnected mouse, both on
the Linux device and on the aggregate, return without assigning the output
reference parameters, so the caller-provided values survive unchanged. -/
theorem C10_disconnected_getters {μ : Type} (m : LinuxMouse)
    (d : AggDev μ AggMouseRep) (x y : Int)
    (hm : m.is_connected = false) (hd : d.is_connected = false) :
    m.GetPosition x y = (x, y) ∧ m.GetDelta x y = (x, y)
    ∧ m.GetScroll x y = (x, y) ∧ m.GetScrollDelta x y = (x, y)
    ∧ AggMouseGetPosition d x y = (x, y) ∧ AggMouseGetDelta d x y = (x, y)
    ∧ AggMouseGetScroll d x y = (x, y) ∧ AggMouseGetScrollDelta d x y = (x, y) := by
  simp [LinuxMouse.GetPosition, LinuxMouse.GetDelta, LinuxMouse.GetScroll,
    LinuxMouse.GetScrollDelta, AggMouseGetPosition, AggMouseGetDelta,
    AggMouseGetScroll, AggMouseGetScrollDelta, hm, hd]

/-- C10 witness: the getters of concrete disconnected devices holding nonzero
data leave the caller values 42 and 7 unchanged. -/
theorem C10_witness :
    mouseC10.GetPosition 42 7 = (42, 7) ∧ mouseC10.GetDelta 42 7 = (42, 7)
    ∧ mouseC10.GetScroll 42 7 = (42, 7) ∧ mouseC10.GetScrollDelta 42 7 = (42, 7)
    ∧ AggMouseGetPosition aggMouseC10 42 7 = (42, 7)
    ∧ AggMouseGetDelta aggMouseC10 42 7 = (42, 7)
    ∧ AggMouseGetScroll aggMouseC10 42 7 = (42, 7)
    ∧ AggMouseGetScrollDelta aggMouseC10 42 7 = (42, 7) :=
  C10_disconnected_getters mouseC10 aggMouseC10 42 7 rfl rfl

end Crossput
